import Mathlib

/-!
Verification development for the `implicitdl` implicit-model library
(`implicit_model.py`).  Matrices are embedded as functions
`Fin r → Fin c → ℚ` (exact rational arithmetic standing for the
real-number semantics of the tensor operations), fallible code returns
`Except`, and the one in-place parameter write in the code is modelled
by explicit state passing.
-/

namespace ImplicitDL

/-- Rational matrices indexed by `Fin`, the shallow embedding of torch tensors. -/
abbrev Mat (r c : Nat) : Type := Matrix (Fin r) (Fin c) ℚ

/-- Modelled from the spec: `utils.transpose` (the module `utils.py` is not in
`src/`); the spec says inputs are transposed between batch-major and
feature-major layout, i.e. an ordinary matrix transpose. -/
def transpose {r c : Nat} (M : Mat r c) : Mat c r :=
  Matrix.of fun i j => M j i

/-- The absolute row sum of row `i`, the quantity maximised by
`torch.linalg.matrix_norm(A, ord=inf)`. -/
def rowAbsSum {r c : Nat} (M : Mat r c) (i : Fin r) : ℚ :=
  ∑ j, |M i j|

/-- `torch.linalg.matrix_norm(A, ord=float(inf))`: the maximum absolute row sum. -/
def linfNorm {r c : Nat} (M : Mat r c) : ℚ :=
  Finset.univ.fold max 0 (rowAbsSum M)

/-- `ImplicitModelLoRA.project_onto_Linf_ball` (identical in
`ImplicitModelLoRA2`): if the infinity norm exceeds the budget `v`,
rescale by `v / norm`, else return the matrix unchanged. -/
def project_onto_Linf_ball {r c : Nat} (M : Mat r c) (v : ℚ) : Mat r c :=
  if v < linfNorm M then (v / linfNorm M) • M else M

/-- The error raised by the shape checks in `forward`.  The `U`-width check
(`assert U.shape[0] == self.p, f'Given input size ... expected ...'`)
carries the observed and the expected width; the `X0` check
(`assert X0.shape == X_shape`) carries no payload at all. -/
inductive ShapeErr where
  | uWidth (observed expected : Nat)
  | x0Shape
deriving DecidableEq

/-- Whether a shape error carries the observed and expected sizes. -/
def ShapeErr.carriesSizes : ShapeErr → Bool
  | .uWidth _ _ => true
  | .x0Shape => false

/-- Modelled from the spec: the external fixed-point solver
(`ImplicitFunction.apply`, from `implicit_function.py`, which is not in
`src/`); the spec only requires that it maps `(A, B, X0, U)` with
`A : n×n`, `B : n×p`, `X0 : n×m`, `U : p×m` to an `n×m` state. -/
def SolveFn : Type :=
  (nn pp mm : Nat) → Mat nn nn → Mat nn pp → Mat nn mm → Mat pp mm → Mat nn mm

/-- The effective input width computed in `__init__`: `if bias: p += 1`. -/
def widthAfterBias : Bool → Nat → Nat
  | true, p => p + 1
  | false, p => p

/-- `F.pad(U, (0, 0, 0, 1), value=1)`: append one constant row of ones at the
bottom of the feature-major input. -/
def padOnes {p m : Nat} (U : Mat p m) : Mat (p + 1) m :=
  Matrix.of fun i j => if h : i.val < p then U ⟨i.val, h⟩ j else 1

/-- The bias branch of `forward`: pad with a ones row exactly when the model
was built with `bias=True`. -/
def applyBias : (bias : Bool) → {p m : Nat} → Mat p m →
    Mat (widthAfterBias bias p) m
  | true, _, _, U => padOnes U
  | false, _, _, U => U

/-- `U.flatten(1, -1)` on a 3-dimensional batch-major input: merge the
sequence and feature dimensions, row-major. -/
def flatten3 {m t p : Nat} (U : Fin m → Fin t → Fin p → ℚ) : Mat m (t * p) :=
  Matrix.of fun i j =>
    have hp : 0 < p := by
      rcases Nat.eq_zero_or_pos p with h0 | h0
      · exact absurd j.isLt (by simp [h0])
      · exact h0
    U i ⟨j.val / p, (Nat.div_lt_iff_lt_mul hp).2 j.isLt⟩
      ⟨j.val % p, Nat.mod_lt _ hp⟩

/-- The `X0` branch of `forward`: a supplied `X0` is transposed to
feature-major and its shape checked against `(n, m)` (a bare assert, no
message); an absent `X0` is synthesized as the zero matrix of shape
`(n, m)`. -/
def resolveX0 (n mu : Nat) (X0? : Option ((a : Nat) × (b : Nat) × Mat a b)) :
    Except ShapeErr (Mat n mu) :=
  match X0? with
  | none => .ok 0
  | some ⟨a, b, X00⟩ =>
      if h : b = n ∧ a = mu then
        .ok (cast (by rw [h.1, h.2]) (transpose X00))
      else .error .x0Shape

/-- The shared tail of every `forward`: check the feature-major input width
against the stored `p`, resolve `X0`, call the solver on the effective
transition matrix and return `transpose(C @ X + D @ U)`. -/
def runForward (n p q w mu : Nat) (Aeff : Mat n n) (B : Mat n p) (C : Mat q n)
    (D : Mat q p) (solve : SolveFn) (U2 : Mat w mu)
    (X0? : Option ((a : Nat) × (b : Nat) × Mat a b)) :
    Except ShapeErr (Mat mu q) :=
  if h : w = p then
    let U3 : Mat p mu := cast (by rw [h]) U2
    match resolveX0 n mu X0? with
    | .error e => .error e
    | .ok X0v => .ok (transpose (C * solve n p mu Aeff B X0v U3 + D * U3))
  else .error (.uWidth w p)

/-- The parameters of `ImplicitModel` (dense variant); `p` is the stored
input width, i.e. already includes the bias adjustment. -/
structure DenseModel (n p q : Nat) where
  A : Mat n n
  B : Mat n p
  C : Mat q n
  D : Mat q p

/-- `ImplicitModel.__init__`: the weight shapes use `widthAfterBias bias p`,
and `D` is the zero matrix when `no_D=True`. -/
def mkDenseModel (n p q : Nat) (bias noD : Bool) (Ai : Mat n n)
    (Bi : Mat n (widthAfterBias bias p)) (Ci : Mat q n)
    (Di : Mat q (widthAfterBias bias p)) :
    DenseModel n (widthAfterBias bias p) q :=
  { A := Ai, B := Bi, C := Ci, D := if noD then 0 else Di }

/-- `ImplicitModel.forward` on a 2-dimensional input, as a state
transformer: the dense variant never writes to the model, so the returned
state is the model unchanged. -/
def denseForward {n p q mu pu : Nat} (bias : Bool) (M : DenseModel n p q)
    (solve : SolveFn) (U : Mat mu pu)
    (X0? : Option ((a : Nat) × (b : Nat) × Mat a b)) :
    DenseModel n p q × Except ShapeErr (Mat mu q) :=
  (M, runForward n p q _ mu M.A M.B M.C M.D solve
    (applyBias bias (transpose U)) X0?)

/-- `ImplicitModel.forward` on a 3-dimensional input: `len(U.size()) == 3`
triggers `U = U.flatten(1, -1)` and the call proceeds exactly as on the
flattened input. -/
def denseForward3 {n p q mu t pu : Nat} (bias : Bool) (M : DenseModel n p q)
    (solve : SolveFn) (U : Fin mu → Fin t → Fin pu → ℚ)
    (X0? : Option ((a : Nat) × (b : Nat) × Mat a b)) :
    DenseModel n p q × Except ShapeErr (Mat mu q) :=
  denseForward bias M solve (flatten3 U) X0?

/-- The fixed projection budget of `ImplicitModelLoRA.forward`. -/
def defaultV : ℚ := 97/100

/-- The parameters of `ImplicitModelLoRA`. -/
structure LoRAModel (n k p q : Nat) where
  L : Mat n k
  R : Mat n k
  B : Mat n p
  C : Mat q n
  D : Mat q p

/-- The effective transition matrix of the LoRA variant:
`project(L, 0.97) @ project(R.transpose(-1,-2), 0.97)`. -/
def loraAeff {n k : Nat} (L R : Mat n k) : Mat n n :=
  project_onto_Linf_ball L defaultV *
    project_onto_Linf_ball (transpose R) defaultV

/-- `ImplicitModelLoRA.forward` as a state transformer; it never writes to
the model. -/
def loraForward {n k p q mu pu : Nat} (bias : Bool) (M : LoRAModel n k p q)
    (solve : SolveFn) (U : Mat mu pu)
    (X0? : Option ((a : Nat) × (b : Nat) × Mat a b)) :
    LoRAModel n k p q × Except ShapeErr (Mat mu q) :=
  (M, runForward n p q _ mu (loraAeff M.L M.R) M.B M.C M.D solve
    (applyBias bias (transpose U)) X0?)

/-- `kappa = 0.95`, the total stability budget of `ImplicitModelLoRA2`. -/
def kappa : ℚ := 95/100

/-- `kapp_diag = 0.45`, the diagonal budget of `ImplicitModelLoRA2`. -/
def kapp_diag : ℚ := 45/100

/-- `1e-10`, the regulariser in the scalar-diagonal rescale. -/
def eps : ℚ := 1/10^10

/-- The parameters of `ImplicitModelLoRA2` with `diag=True` (`Diag` is an
`n`-vector). -/
structure LoRA2DiagModel (n k p q : Nat) where
  L : Mat n k
  R : Mat n k
  Diag : Fin n → ℚ
  B : Mat n p
  C : Mat q n
  D : Mat q p

/-- `Diag_projected` in the `diag=True` branch:
`project_onto_Linf_ball(torch.diag(self.Diag), kapp_diag)`. -/
def lora2DiagProjected {n : Nat} (d : Fin n → ℚ) : Mat n n :=
  project_onto_Linf_ball (Matrix.diagonal d) kapp_diag

/-- `L_projected = project_onto_Linf_ball(self.L, b)` where `b` stands for
the value of `math.sqrt(kappa - kapp_diag)` (irrational, so taken as a
parameter and constrained in the theorems). -/
def lora2FactorL {n k : Nat} (b : ℚ) (L : Mat n k) : Mat n k :=
  project_onto_Linf_ball L b

/-- `RT_projected = project_onto_Linf_ball(self.R.transpose(-1,-2), b)`. -/
def lora2FactorRT {n k : Nat} (b : ℚ) (R : Mat n k) : Mat k n :=
  project_onto_Linf_ball (transpose R) b

/-- The effective transition matrix of the `diag=True` branch:
`Diag_projected + L_projected @ RT_projected`. -/
def lora2DiagAeff {n k : Nat} (b : ℚ) (L R : Mat n k) (d : Fin n → ℚ) :
    Mat n n :=
  lora2DiagProjected d + lora2FactorL b L * lora2FactorRT b R

/-- `ImplicitModelLoRA2.forward` with `diag=True`, as a state transformer;
this branch never writes to the model. -/
def lora2DiagForward {n k p q mu pu : Nat} (bias : Bool) (b : ℚ)
    (M : LoRA2DiagModel n k p q) (solve : SolveFn) (U : Mat mu pu)
    (X0? : Option ((a : Nat) × (b : Nat) × Mat a b)) :
    LoRA2DiagModel n k p q × Except ShapeErr (Mat mu q) :=
  (M, runForward n p q _ mu (lora2DiagAeff b M.L M.R M.Diag) M.B M.C M.D
    solve (applyBias bias (transpose U)) X0?)

/-- The parameters of `ImplicitModelLoRA2` with `diag=False` (`Diag` is a
1 × 1 tensor, modelled as a scalar). -/
structure LoRA2ScalarModel (n k p q : Nat) where
  L : Mat n k
  R : Mat n k
  Diag : ℚ
  B : Mat n p
  C : Mat q n
  D : Mat q p

/-- The in-place rescale of the scalar diagonal:
`if torch.abs(self.Diag) > kappa: self.Diag = kappa * self.Diag/(self.Diag + 1e-10)`. -/
def lora2ScalarNewDiag (d : ℚ) : ℚ :=
  if kappa < |d| then kappa * d / (d + eps) else d

/-- `Diag_projected = self.Diag * torch.eye(self.n, self.n)` (applied to the
possibly rescaled stored scalar). -/
def lora2ScalarDiagProjected (n : Nat) (d : ℚ) : Mat n n :=
  d • (1 : Mat n n)

/-- `ImplicitModelLoRA2.forward` with `diag=False`, as a state transformer:
the shape checks run first, and on success the stored scalar `Diag` is
overwritten with its rescaled value before the solver is invoked. -/
def lora2ScalarForward {n k p q mu pu : Nat} (bias : Bool) (b : ℚ)
    (M : LoRA2ScalarModel n k p q) (solve : SolveFn) (U : Mat mu pu)
    (X0? : Option ((a : Nat) × (b : Nat) × Mat a b)) :
    LoRA2ScalarModel n k p q × Except ShapeErr (Mat mu q) :=
  if h : widthAfterBias bias pu = p then
    match resolveX0 n mu X0? with
    | .error e => (M, .error e)
    | .ok X0v =>
        let newD := lora2ScalarNewDiag M.Diag
        let U3 : Mat p mu := cast (by rw [h]) (applyBias bias (transpose U))
        ({ M with Diag := newD },
          .ok (transpose (M.C * solve n p mu
            (lora2ScalarDiagProjected n newD +
              lora2FactorL b M.L * lora2FactorRT b M.R)
            M.B X0v U3 + M.D * U3)))
  else (M, .error (.uWidth (widthAfterBias bias pu) p))

/-- A concrete 1 × 1 matrix with entry 1, used as a boundary instance. -/
def unitMat : Mat 1 1 := Matrix.of fun _ _ => 1

/-- A concrete dense model with all-zero parameters, used in witnesses. -/
def denseModel0 : DenseModel 1 1 1 := ⟨0, 0, 0, 0⟩

/-- A concrete dense model with input width 2, used in witnesses. -/
def denseModel2 : DenseModel 1 2 1 := ⟨0, 0, 0, 0⟩

/-- A concrete LoRA model, used in witnesses. -/
def loraModel0 : LoRAModel 1 1 2 1 := ⟨0, 0, 0, 0, 0⟩

/-- A concrete LoRA model with all widths 1, used in witnesses. -/
def loraModel1 : LoRAModel 1 1 1 1 := ⟨0, 0, 0, 0, 0⟩

/-- A concrete diagonal vector, used in witnesses. -/
def diag0 : Fin 1 → ℚ := fun _ => 1

/-- A concrete `diag=True` LoRA2 model, used in witnesses. -/
def lora2DiagModel0 : LoRA2DiagModel 1 1 1 1 := ⟨0, 0, fun _ => 0, 0, 0, 0⟩

/-- A concrete `diag=False` LoRA2 model with scalar `Diag = 1`, used in
witnesses. -/
def lora2ScalarModel0 : LoRA2ScalarModel 1 1 1 1 := ⟨0, 0, 1, 0, 0, 0⟩

/-- A concrete solver instantiation for witnesses: return the initial state. -/
def solve0 : SolveFn := fun _ _ _ _ _ X0 _ => X0

/-- A concrete mis-shaped `X0` argument (batch 2 where the model expects
batch 1). -/
def badX0 : (a : Nat) × (b : Nat) × Mat a b := ⟨2, 1, 0⟩

/-- A concrete 3-dimensional input of shape `(1, 2, 1)`, used in witnesses. -/
def input3d0 : Fin 1 → Fin 2 → Fin 1 → ℚ := fun _ _ _ => 1

theorem rowAbsSum_nonneg {r c : Nat} (M : Mat r c) (i : Fin r) :
    0 ≤ rowAbsSum M i :=
  Finset.sum_nonneg fun _ _ => abs_nonneg _

theorem linfNorm_nonneg {r c : Nat} (M : Mat r c) : 0 ≤ linfNorm M := by
  unfold linfNorm
  exact (Finset.le_fold_max _).2 (Or.inl le_rfl)

theorem rowAbsSum_le_linfNorm {r c : Nat} (M : Mat r c) (i : Fin r) :
    rowAbsSum M i ≤ linfNorm M := by
  unfold linfNorm
  exact (Finset.le_fold_max _).2 (Or.inr ⟨i, Finset.mem_univ i, le_rfl⟩)

theorem linfNorm_le_iff {r c : Nat} (M : Mat r c) (v : ℚ) :
    linfNorm M ≤ v ↔ 0 ≤ v ∧ ∀ i, rowAbsSum M i ≤ v := by
  unfold linfNorm
  rw [Finset.fold_max_le]
  simp

theorem fold_max_mul {ι : Type} (a : ℚ) (ha : 0 ≤ a) (s : Finset ι) (f : ι → ℚ) :
    s.fold max 0 (fun i => a * f i) = a * s.fold max 0 f := by
  classical
  induction s using Finset.induction_on with
  | empty => simp
  | insert h ih =>
      rw [Finset.fold_insert h, Finset.fold_insert h, ih]
      exact (mul_max_of_nonneg _ _ ha).symm

theorem rowAbsSum_smul {r c : Nat} (a : ℚ) (M : Mat r c) (i : Fin r) :
    rowAbsSum (a • M) i = |a| * rowAbsSum M i := by
  unfold rowAbsSum
  rw [Finset.mul_sum]
  refine Finset.sum_congr rfl fun j _ => ?_
  rw [Matrix.smul_apply, smul_eq_mul, abs_mul]

theorem linfNorm_smul {r c : Nat} (a : ℚ) (M : Mat r c) :
    linfNorm (a • M) = |a| * linfNorm M := by
  unfold linfNorm
  rw [Finset.fold_congr fun i _ => rowAbsSum_smul a M i]
  exact fold_max_mul |a| (abs_nonneg a) _ _

theorem project_of_le {r c : Nat} {M : Mat r c} {v : ℚ} (h : linfNorm M ≤ v) :
    project_onto_Linf_ball M v = M :=
  if_neg (not_lt.2 h)

theorem project_of_lt {r c : Nat} {M : Mat r c} {v : ℚ} (h : v < linfNorm M) :
    project_onto_Linf_ball M v = (v / linfNorm M) • M :=
  if_pos h

theorem linfNorm_project_of_lt {r c : Nat} {M : Mat r c} {v : ℚ}
    (hv : 0 ≤ v) (h : v < linfNorm M) :
    linfNorm (project_onto_Linf_ball M v) = v := by
  have hn : 0 < linfNorm M := lt_of_le_of_lt hv h
  rw [project_of_lt h, linfNorm_smul,
    abs_of_nonneg (div_nonneg hv hn.le), div_mul_cancel₀ v hn.ne']

theorem linfNorm_project_le {r c : Nat} (M : Mat r c) {v : ℚ} (hv : 0 ≤ v) :
    linfNorm (project_onto_Linf_ball M v) ≤ v := by
  by_cases h : v < linfNorm M
  · exact le_of_eq (linfNorm_project_of_lt hv h)
  · rw [project_of_le (not_lt.1 h)]
    exact not_lt.1 h

theorem linfNorm_unitMat : linfNorm unitMat = 1 := by
  unfold linfNorm rowAbsSum unitMat
  rw [Finset.univ_unique, Finset.fold_singleton]
  norm_num

/-- C1 counterexample input: with `v = 1` and `M = unitMat` (infinity norm
exactly `v`), the projected norm equals `v` although the norm of `M` does
not exceed `v`, so "equality exactly when the norm exceeds v" is false. -/
theorem project_norm_eq_at_boundary :
    (0 : ℚ) < 1 ∧
    linfNorm (project_onto_Linf_ball unitMat 1) = 1 ∧
    ¬ (1 < linfNorm unitMat) := by
  refine ⟨by norm_num, ?_, ?_⟩
  · rw [project_of_le (le_of_eq linfNorm_unitMat), linfNorm_unitMat]
  · rw [linfNorm_unitMat]
    norm_num

/-- C1 (amended): for `v > 0` the projection has infinity norm at most `v`,
with equality exactly when the norm of `M` is at least `v` (not strictly
greater); it is the identity inside the ball and rescales by `v / norm`
outside it. -/
theorem project_onto_Linf_ball_spec {r c : Nat} (M : Mat r c) (v : ℚ)
    (hv : 0 < v) :
    linfNorm (project_onto_Linf_ball M v) ≤ v ∧
    (linfNorm (project_onto_Linf_ball M v) = v ↔ v ≤ linfNorm M) ∧
    (linfNorm M ≤ v → project_onto_Linf_ball M v = M) ∧
    (v < linfNorm M →
      project_onto_Linf_ball M v = (v / linfNorm M) • M) := by
  refine ⟨linfNorm_project_le M hv.le, ⟨?_, ?_⟩, fun h => project_of_le h,
    fun h => project_of_lt h⟩
  · intro heq
    by_cases h : v < linfNorm M
    · exact h.le
    · rw [project_of_le (not_lt.1 h)] at heq
      exact heq.ge
  · intro hge
    by_cases h : v < linfNorm M
    · exact linfNorm_project_of_lt hv.le h
    · rw [project_of_le (not_lt.1 h)]
      exact le_antisymm (not_lt.1 h) hge

/-- Witness for C1's amended theorem at `M = unitMat`, `v = 2`. -/
theorem project_onto_Linf_ball_spec_witness :
    (0 : ℚ) < 2 ∧
    (linfNorm (project_onto_Linf_ball unitMat 2) ≤ 2 ∧
    (linfNorm (project_onto_Linf_ball unitMat 2) = 2 ↔ 2 ≤ linfNorm unitMat) ∧
    (linfNorm unitMat ≤ 2 → project_onto_Linf_ball unitMat 2 = unitMat) ∧
    (2 < linfNorm unitMat →
      project_onto_Linf_ball unitMat 2 = (2 / linfNorm unitMat) • unitMat)) :=
  ⟨by norm_num, project_onto_Linf_ball_spec unitMat 2 (by norm_num)⟩

/-- C6: the projection is idempotent for every positive budget. -/
theorem project_onto_Linf_ball_idempotent {r c : Nat} (M : Mat r c) (v : ℚ)
    (hv : 0 < v) :
    project_onto_Linf_ball (project_onto_Linf_ball M v) v =
      project_onto_Linf_ball M v :=
  project_of_le (linfNorm_project_le M hv.le)

/-- Witness for C6 at `M = unitMat`, `v = 1/2`. -/
theorem project_onto_Linf_ball_idempotent_witness :
    (0 : ℚ) < 1/2 ∧
    project_onto_Linf_ball (project_onto_Linf_ball unitMat (1/2)) (1/2) =
      project_onto_Linf_ball unitMat (1/2) :=
  ⟨by norm_num, project_onto_Linf_ball_idempotent unitMat (1/2) (by norm_num)⟩

theorem resolveX0_bad {n mu a b : Nat} (X00 : Mat a b)
    (hx : ¬(b = n ∧ a = mu)) :
    resolveX0 n mu (some ⟨a, b, X00⟩) = .error .x0Shape := by
  simp only [resolveX0]
  rw [dif_neg hx]

theorem runForward_ok (n p q mu : Nat) (Aeff : Mat n n) (B : Mat n p)
    (C : Mat q n) (D : Mat q p) (solve : SolveFn) (U2 : Mat p mu) :
    runForward n p q p mu Aeff B C D solve U2 none =
      .ok (transpose (C * solve n p mu Aeff B 0 U2 + D * U2)) := by
  unfold runForward
  rw [dif_pos rfl]
  simp [resolveX0]

/-- C3: a 2-dimensional input of width equal to the configured input width
is accepted and produces an output of batch-major shape `(m, q)` (the type
`Mat mu q`), for the dense and the LoRA variants; a 3-dimensional input is
accepted, handled exactly as its pre-flattened 2-dimensional form, and
produces an `(m, q)` output whenever the flattened width matches. -/
theorem forward_shape_contract (n p q k mu : Nat) (Md : DenseModel n p q)
    (Ml : LoRAModel n k p q) (solve : SolveFn) :
    (∀ U : Mat mu p, ∃ Y : Mat mu q,
      (denseForward false Md solve U none).2 = .ok Y) ∧
    (∀ U : Mat mu p, ∃ Y : Mat mu q,
      (loraForward false Ml solve U none).2 = .ok Y) ∧
    (∀ (t pu : Nat) (bias : Bool) (U : Fin mu → Fin t → Fin pu → ℚ)
      (X0? : Option ((a : Nat) × (b : Nat) × Mat a b)),
      denseForward3 bias Md solve U X0? =
        denseForward bias Md solve (flatten3 U) X0?) ∧
    (∀ (t pu : Nat) (U : Fin mu → Fin t → Fin pu → ℚ), t * pu = p →
      ∃ Y : Mat mu q, (denseForward3 false Md solve U none).2 = .ok Y) := by
  refine ⟨fun U => ⟨_, runForward_ok n p q mu Md.A Md.B Md.C Md.D solve
      (transpose U)⟩,
    fun U => ⟨_, runForward_ok n p q mu (loraAeff Ml.L Ml.R) Ml.B Ml.C Ml.D
      solve (transpose U)⟩,
    fun _ _ _ _ _ => rfl,
    fun t pu U h => ?_⟩
  subst h
  exact ⟨_, runForward_ok n (t * pu) q mu Md.A Md.B Md.C Md.D solve
    (transpose (flatten3 U))⟩

/-- Witness for C3 at a concrete model with `p = 2` and a `(1, 2, 1)`-shaped
3-dimensional input. -/
theorem forward_shape_contract_witness :
    2 * 1 = 2 ∧
    ∃ Y : Mat 1 1, (denseForward3 false denseModel2 solve0 input3d0 none).2 =
      .ok Y :=
  ⟨rfl, (forward_shape_contract 1 2 1 1 1 denseModel2 loraModel0
    solve0).2.2.2 2 1 input3d0 rfl⟩

/-- C4 (amended): a `U` whose feature width after the bias adjustment
differs from the configured `p` makes `forward` fail with an error carrying
the observed and the expected width; an `X0` whose feature-major shape
differs from `(n, m)` makes `forward` fail with the payload-free shape
error (the source's bare `assert`, which carries no sizes); both failures
are the final result of the call. -/
theorem shape_mismatch_detection (n p q mu pu : Nat) (M : DenseModel n p q)
    (solve : SolveFn) (bias : Bool) (U : Mat mu pu) :
    (∀ X0? : Option ((a : Nat) × (b : Nat) × Mat a b),
      widthAfterBias bias pu ≠ p →
      (denseForward bias M solve U X0?).2 =
        .error (.uWidth (widthAfterBias bias pu) p)) ∧
    (∀ (a b : Nat) (X00 : Mat a b), widthAfterBias bias pu = p →
      ¬(b = n ∧ a = mu) →
      (denseForward bias M solve U (some ⟨a, b, X00⟩)).2 =
        .error .x0Shape) ∧
    (∀ o e, (ShapeErr.uWidth o e).carriesSizes = true) := by
  refine ⟨fun X0? hw => ?_, fun a b X00 hw hx => ?_, fun _ _ => rfl⟩
  · unfold denseForward runForward
    rw [dif_neg hw]
  · subst hw
    unfold denseForward runForward
    rw [dif_pos rfl, resolveX0_bad X00 hx]

/-- Witness for C4's amended theorem at a width-1 model called with a
width-2 input and with a batch-2 `X0`. -/
theorem shape_mismatch_detection_witness :
    ((denseForward false denseModel0 solve0 (transpose (0 : Mat 2 1))
        none).2 = .error (.uWidth 2 1) ∧
     (denseForward false denseModel0 solve0 unitMat
        (some ⟨2, 1, (0 : Mat 2 1)⟩)).2 = .error .x0Shape) := by
  constructor
  · exact (shape_mismatch_detection 1 1 1 1 2 denseModel0 solve0 false
      (transpose (0 : Mat 2 1))).1 none (by decide)
  · exact (shape_mismatch_detection 1 1 1 1 1 denseModel0 solve0 false
      unitMat).2.1 2 1 (0 : Mat 2 1) rfl (by decide)

/-- C4 counterexample input: a mis-shaped `X0` produces the payload-free
error, so the claim that the error carries both the observed and the
expected sizes in both cases is false. -/
theorem x0_error_carries_no_sizes :
    (denseForward false denseModel0 solve0 unitMat (some badX0)).2 =
      .error .x0Shape ∧
    ShapeErr.carriesSizes .x0Shape = false := by
  constructor
  · exact (shape_mismatch_detection 1 1 1 1 1 denseModel0 solve0 false
      unitMat).2.1 2 1 (0 : Mat 2 1) rfl (by decide)
  · rfl

/-- C5: with `bias=true` the effective input width used for the weight
shapes is `p + 1`, and every forward call appends exactly one constant row
of ones to the feature-major input: the appended row is identically `1`,
all original rows are preserved, and `forward` with `bias=true` runs the
orchestrator on exactly `padOnes` of the transposed input. -/
theorem bias_effective_width_and_ones_row (p m : Nat) :
    widthAfterBias true p = p + 1 ∧
    (∀ (U1 : Mat p m) (j : Fin m), padOnes U1 (Fin.last p) j = 1) ∧
    (∀ (U1 : Mat p m) (i : Fin p) (j : Fin m),
      padOnes U1 i.castSucc j = U1 i j) ∧
    (∀ U1 : Mat p m, applyBias true U1 = padOnes U1) ∧
    (∀ (n q : Nat) (M : DenseModel n (p + 1) q) (solve : SolveFn)
      (U : Mat m p) (X0? : Option ((a : Nat) × (b : Nat) × Mat a b)),
      (denseForward true M solve U X0?).2 =
        runForward n (p + 1) q (p + 1) m M.A M.B M.C M.D solve
          (padOnes (transpose U)) X0?) := by
  refine ⟨rfl, fun U1 j => ?_, fun U1 i j => ?_, fun U1 => rfl,
    fun n q M solve U X0? => rfl⟩
  · unfold padOnes
    simp [Fin.last]
  · unfold padOnes
    simp

/-- C7: when `X0` is omitted, the initial state handed to the solver is the
zero matrix of shape `(n, m)`; in particular for the dense variant with
`n = 4`, `p = 3`, `q = 2`, `m = 5`, `bias=false`, the solver receives the
4 × 5 zero matrix and the output has shape `(5, 2)` (the type `Mat 5 2`). -/
theorem default_X0_zero_synthesis (n p q mu : Nat) (M : DenseModel n p q)
    (solve : SolveFn) :
    resolveX0 n mu none = .ok (0 : Mat n mu) ∧
    (∀ U : Mat mu p, (denseForward false M solve U none).2 =
      .ok (transpose (M.C * solve n p mu M.A M.B (0 : Mat n mu)
        (transpose U) + M.D * transpose U))) ∧
    (∀ (M4 : DenseModel 4 3 2) (U4 : Mat 5 3),
      (denseForward false M4 solve U4 none).2 =
        .ok ((transpose (M4.C * solve 4 3 5 M4.A M4.B (0 : Mat 4 5)
          (transpose U4) + M4.D * transpose U4) : Mat 5 2))) :=
  ⟨rfl,
   fun U => runForward_ok n p q mu M.A M.B M.C M.D solve (transpose U),
   fun M4 U4 => runForward_ok 4 3 2 5 M4.A M4.B M4.C M4.D solve
     (transpose U4)⟩

/-- C9: a model built with `no_D=true` behaves on `forward` exactly like a
model built with `no_D=false` whose `D` is the zero matrix, for every
input. -/
theorem noD_forward_equiv (n p q mu pu : Nat) (bias : Bool) (Ai : Mat n n)
    (Bi : Mat n (widthAfterBias bias p)) (Ci : Mat q n)
    (Di : Mat q (widthAfterBias bias p)) (solve : SolveFn) (U : Mat mu pu)
    (X0? : Option ((a : Nat) × (b : Nat) × Mat a b)) :
    denseForward bias (mkDenseModel n p q bias true Ai Bi Ci Di) solve
        U X0? =
      denseForward bias (mkDenseModel n p q bias false Ai Bi Ci 0) solve
        U X0? := by
  have h : mkDenseModel n p q bias true Ai Bi Ci Di =
      mkDenseModel n p q bias false Ai Bi Ci 0 := by
    unfold mkDenseModel
    simp
  rw [h]

/-- C2: in the `diag=True` branch the projected diagonal term has infinity
norm at most `kapp_diag = 0.45`, and each projected low-rank factor has
infinity norm at most the budget `b = math.sqrt(kappa - kapp_diag)`
(equivalently, its square is at most `kappa - kapp_diag = 1/2`), for
arbitrary parameter values. -/
theorem lora2_diag_budget_split (n k : Nat) (d : Fin n → ℚ) (L R : Mat n k)
    (b : ℚ) (hb0 : 0 ≤ b) (hb : b ^ 2 ≤ kappa - kapp_diag) :
    linfNorm (lora2DiagProjected d) ≤ kapp_diag ∧
    0 ≤ linfNorm (lora2FactorL b L) ∧
    linfNorm (lora2FactorL b L) ^ 2 ≤ kappa - kapp_diag ∧
    0 ≤ linfNorm (lora2FactorRT b R) ∧
    linfNorm (lora2FactorRT b R) ^ 2 ≤ kappa - kapp_diag := by
  have hkd : (0 : ℚ) ≤ kapp_diag := by norm_num [kapp_diag]
  refine ⟨linfNorm_project_le _ hkd, linfNorm_nonneg _, ?_,
    linfNorm_nonneg _, ?_⟩
  · exact le_trans
      (pow_le_pow_left₀ (linfNorm_nonneg _) (linfNorm_project_le _ hb0) 2) hb
  · exact le_trans
      (pow_le_pow_left₀ (linfNorm_nonneg _) (linfNorm_project_le _ hb0) 2) hb

/-- Witness for C2 at `n = k = 1`, budget `b = 7/10`. -/
theorem lora2_diag_budget_split_witness :
    ((0 : ℚ) ≤ 7/10 ∧ (7/10 : ℚ) ^ 2 ≤ kappa - kapp_diag) ∧
    (linfNorm (lora2DiagProjected diag0) ≤ kapp_diag ∧
     0 ≤ linfNorm (lora2FactorL (7/10) unitMat) ∧
     linfNorm (lora2FactorL (7/10) unitMat) ^ 2 ≤ kappa - kapp_diag ∧
     0 ≤ linfNorm (lora2FactorRT (7/10) unitMat) ∧
     linfNorm (lora2FactorRT (7/10) unitMat) ^ 2 ≤ kappa - kapp_diag) :=
  ⟨⟨by norm_num, by norm_num [kappa, kapp_diag]⟩,
   lora2_diag_budget_split 1 1 diag0 unitMat unitMat (7/10) (by norm_num)
     (by norm_num [kappa, kapp_diag])⟩

/-- C10: with `diag=False` and `|Diag| > kappa`, the value written back is
exactly `kappa * Diag / (Diag + 1e-10)`; this value is strictly positive
for either sign of `Diag`, and the diagonal contribution to the effective
transition matrix is this new scalar times the identity. -/
theorem scalar_diag_rescale_positive (n : Nat) (d : ℚ) (h : kappa < |d|) :
    lora2ScalarNewDiag d = kappa * d / (d + eps) ∧
    0 < lora2ScalarNewDiag d ∧
    lora2ScalarDiagProjected n (lora2ScalarNewDiag d) =
      lora2ScalarNewDiag d • (1 : Mat n n) := by
  have hformula : lora2ScalarNewDiag d = kappa * d / (d + eps) := if_pos h
  refine ⟨hformula, ?_, rfl⟩
  rw [hformula]
  rcases abs_cases d with ⟨he, hd0⟩ | ⟨he, hd0⟩
  · rw [he] at h
    have hd : (0 : ℚ) < d := lt_trans (by norm_num [kappa]) h
    exact div_pos (mul_pos (by norm_num [kappa]) hd)
      (add_pos hd (by norm_num [eps]))
  · rw [he] at h
    have hd : d < -kappa := by linarith
    have hden : d + eps < 0 := by
      have : -kappa + eps < 0 := by norm_num [kappa, eps]
      linarith
    have hnum : kappa * d < 0 :=
      mul_neg_of_pos_of_neg (by norm_num [kappa]) hd0
    exact div_pos_of_neg_of_neg hnum hden

/-- Witness for C10 at `Diag = 1`. -/
theorem scalar_diag_rescale_positive_witness :
    kappa < |(1 : ℚ)| ∧
    (lora2ScalarNewDiag 1 = kappa * 1 / (1 + eps) ∧
     0 < lora2ScalarNewDiag 1 ∧
     lora2ScalarDiagProjected 1 (lora2ScalarNewDiag 1) =
       lora2ScalarNewDiag 1 • (1 : Mat 1 1)) :=
  ⟨by norm_num [kappa], scalar_diag_rescale_positive 1 1 (by norm_num [kappa])⟩

/-- C8: a forward call leaves the parameters of the dense, LoRA and
`diag=True` LoRA2 variants untouched; the `diag=False` LoRA2 variant leaves
`L`, `R`, `B`, `C`, `D` untouched but overwrites the stored scalar `Diag`
with its rescaled value — which differs from the stored value only when its
absolute value exceeds `kappa`. -/
theorem forward_frame_effects (n k p q mu pu : Nat) (bias : Bool) (b : ℚ)
    (Md : DenseModel n p q) (Ml : LoRAModel n k p q)
    (M2 : LoRA2DiagModel n k p q) (M3 : LoRA2ScalarModel n k p q)
    (solve : SolveFn) (U : Mat mu pu)
    (X0? : Option ((a : Nat) × (b : Nat) × Mat a b))
    (hw : widthAfterBias bias pu = p) :
    (denseForward bias Md solve U X0?).1 = Md ∧
    (loraForward bias Ml solve U X0?).1 = Ml ∧
    (lora2DiagForward bias b M2 solve U X0?).1 = M2 ∧
    (lora2ScalarForward bias b M3 solve U none).1 =
      { M3 with Diag := lora2ScalarNewDiag M3.Diag } ∧
    (|M3.Diag| ≤ kappa → lora2ScalarNewDiag M3.Diag = M3.Diag) := by
  refine ⟨rfl, rfl, rfl, ?_, fun hle => if_neg (not_lt.2 hle)⟩
  subst hw
  unfold lora2ScalarForward
  rw [dif_pos rfl]
  rfl

/-- Witness for C8 at all widths 1, `bias=false`, stored scalar `Diag = 1`. -/
theorem forward_frame_effects_witness :
    widthAfterBias false 1 = 1 ∧
    ((denseForward false denseModel0 solve0 unitMat none).1 = denseModel0 ∧
     (loraForward false loraModel1 solve0 unitMat none).1 = loraModel1 ∧
     (lora2DiagForward false (7/10) lora2DiagModel0 solve0 unitMat
        none).1 = lora2DiagModel0 ∧
     (lora2ScalarForward false (7/10) lora2ScalarModel0 solve0 unitMat
        none).1 =
       { lora2ScalarModel0 with
          Diag := lora2ScalarNewDiag lora2ScalarModel0.Diag } ∧
     (|lora2ScalarModel0.Diag| ≤ kappa →
       lora2ScalarNewDiag lora2ScalarModel0.Diag =
         lora2ScalarModel0.Diag)) :=
  ⟨rfl, forward_frame_effects 1 1 1 1 1 1 false (7/10) denseModel0
    loraModel1 lora2DiagModel0 lora2ScalarModel0 solve0 unitMat none rfl⟩

end ImplicitDL
